import Mathlib

/-!
Shallow embedding of `src/web3py/contract_functions.py` (cloud-chain).

The Python class `ContractTest` holds three account addresses, three private
keys and a list of per-account nonces; its methods build, sign and submit
blockchain transactions and fold the receipt statuses with logical AND.
External library calls (signing, submission, receipt waiting, transaction
count lookup, contract address lookup) are modelled by explicit environment
records that supply the value the awaited call produces, or the exception it
raises.  Python exceptions are modelled by `Except`: a raised exception not
caught by a handler propagates as `.error`.
-/

namespace CloudChain

/-- Python exceptions relevant to the code: `ValueError` and
`web3.exceptions.TimeExhausted` are the two caught kinds; `other` stands for
any other exception an awaited library call might raise. -/
inductive PyExn where
  | valueError (msg : String)
  | timeExhausted (msg : String)
  | other (msg : String)
deriving DecidableEq, Repr

/-- Whether `except (ValueError, TimeExhausted)` catches the exception. -/
def catchable : PyExn → Bool
  | .valueError _ => true
  | .timeExhausted _ => true
  | .other _ => false

/-- Result of one awaited library call: the value produced, or the exception
raised. -/
inductive StepResult (α : Type) where
  | ok (a : α)
  | exn (e : PyExn)
deriving DecidableEq, Repr

/-- A transaction receipt as used by the code: only `tx_receipt['status']` is
read. -/
structure Receipt where
  status : Nat
deriving DecidableEq, Repr

/-- The transaction dict produced by a `buildTransaction` call.  The code
always sets `gasPrice`, `from` and `nonce`; a `value` entry is present only
where the dict literal contains one.  `fn` and `args` record the contract
function whose call data the transaction carries. -/
structure Tx where
  fn : String
  args : List String
  gasPrice : Nat
  sender : String
  nonce : Nat
  value : Option Nat
deriving DecidableEq, Repr

/-- Environment of one `sign_send_transaction` call: the outcome of the
`sign_transaction` call, of `send_raw_transaction` on the signed bytes, and
of `wait_for_transaction_receipt` on the returned hash. -/
structure SSEnv where
  sign : StepResult Nat
  send : Nat → StepResult Nat
  wait : Nat → StepResult Receipt

/-- Method `ContractTest.sign_send_transaction`: sign `tx` with `pk`, submit, await
the receipt; `ValueError` and `TimeExhausted` raised anywhere in the `try`
block are caught and turned into status `0` (the debug print is a no-op
here); any other exception propagates; on success the receipt `status` field
is returned. -/
def sign_send_transaction (env : SSEnv) (tx : Tx) (pk : String) :
    Except PyExn Nat :=
  match env.sign with
  | .exn e => if catchable e then .ok 0 else .error e
  | .ok signed_tx =>
    match env.send signed_tx with
    | .exn e => if catchable e then .ok 0 else .error e
    | .ok tx_hash =>
      match env.wait tx_hash with
      | .exn e => if catchable e then .ok 0 else .error e
      | .ok tx_receipt => .ok tx_receipt.status

/-- Modelled from the spec: `check_statuses` lives in `utility.py`, which is
not under `src/`; the spec says scenario results fold the list of receipt
statuses with logical AND, a status of zero meaning failure.  So the result
is true exactly when every status is nonzero. -/
def check_statuses (statuses : List Nat) : Bool :=
  statuses.all (fun s => s != 0)

/-- The in-memory state of a `ContractTest` object: the two looked-up
contract addresses, the three configured accounts with their private keys,
and the mutable nonce list.  The web3 client handles and the lock object
carry no modelled state; the lock is reflected in the sequential semantics
of the nonce operations. -/
structure ContractTest where
  factory_address : String
  oracle_address : String
  accounts : Nat → String
  private_keys : Nat → String
  nonces : List Nat

/-- The nonce-list initialisation in `ContractTest.__init__`: for `idx in
range(3)` append the network transaction count of account `idx` (`txCount`
is the network's answer for each index). -/
def init_nonces (txCount : Nat → Nat) : List Nat :=
  (List.range 3).foldl (fun ns idx => ns ++ [txCount idx]) []

/-- Method `ContractTest.get_nonce`: awaits the network transaction count of
account `idx`; `count` is the network's answer for this call.  The object
state is read (for the account address) but never written. -/
def get_nonce (self : ContractTest) (idx : Nat) (count : Nat) :
    Nat × ContractTest :=
  (count, self)

/-- Method `ContractTest.get_nonce_lock`: under the lock, read `nonces[idx]` into
`tmp`, store `nonces[idx] + 1` back, and return `tmp`.  An out-of-range
index raises `IndexError` (modelled as `none`). -/
def get_nonce_lock (self : ContractTest) (idx : Nat) :
    Option (Nat × ContractTest) :=
  match self.nonces[idx]? with
  | none => none
  | some tmp =>
    some (tmp, { self with nonces := self.nonces.set idx (tmp + 1) })

/-- Method `ContractTest.get_nonce_lock` with the simulated-contention delay made
explicit: `await asyncio.sleep(.1)` contributes `delay` time units, returned
as a third component; everything else is as in `get_nonce_lock`. -/
def get_nonce_lock_timed (delay : Nat) (self : ContractTest) (idx : Nat) :
    Option (Nat × ContractTest × Nat) :=
  match self.nonces[idx]? with
  | none => none
  | some tmp =>
    some (tmp, { self with nonces := self.nonces.set idx (tmp + 1) }, delay)

/-- Method `ContractTest.update_nonces`: under the lock, for `i in range(3)` set
`nonces[i]` to the network transaction count of account `i` (`counts i` is
the network's answer); assigning past the end of the list raises
`IndexError` (modelled as `none`). -/
def update_nonces (self : ContractTest) (counts : Nat → Nat) :
    Option ContractTest :=
  match (List.range 3).foldlM
      (fun ns i => if i < ns.length then some (ns.set i (counts i)) else none)
      self.nonces with
  | none => none
  | some ns => some { self with nonces := ns }

/-- Library call `Web3.solidityKeccak(['bytes32'], [hash_digest])`: an opaque library
hash, modelled as a deterministic injective tagging of its argument. -/
def solidityKeccak (hash_digest : String) : String :=
  "keccak256:" ++ hash_digest

/-- What a scenario method produces when no exception propagates: the
transaction dicts it built (in order), the `statuses` list it accumulated
(one receipt status per submitted transaction, in order), the boolean
`all_statuses` it returns, and the object state at return. -/
structure ScenarioOut where
  txs : List Tx
  statuses : List Nat
  result : Bool
  final : ContractTest

/-- Output of `cloud_sla_creation_activation`, whose Python return value is
the pair `(tx_sm_address, all_statuses)`. -/
structure CreationOut where
  txs : List Tx
  statuses : List Nat
  sm_address : String
  result : Bool
  final : ContractTest

/-- Environment of a two-transaction scenario: the network answer to each of
the two `get_nonce` calls and the world of each `sign_send_transaction`
call, in program order. -/
structure Env2 where
  nonceA : Nat
  ssA : SSEnv
  nonceB : Nat
  ssB : SSEnv

/-- Environment of a three-transaction scenario, in program order. -/
structure Env3 where
  nonceA : Nat
  ssA : SSEnv
  nonceB : Nat
  ssB : SSEnv
  nonceC : Nat
  ssC : SSEnv

/-- Environment of `cloud_sla_creation_activation`: additionally the address
answered by the `getSmartContractAddress(...).call()` lookup. -/
structure CreationEnv where
  nonceA : Nat
  ssA : SSEnv
  sm_address : String
  nonceB : Nat
  ssB : SSEnv

/-- Method `ContractTest.cloud_sla_creation_activation`: submit `createChild` from
account 0, look up the child contract address, submit `Deposit` (carrying
`value = price`) from account 1, and return the address together with the
AND of the two statuses. -/
def cloud_sla_creation_activation (self : ContractTest) (env : CreationEnv) :
    Except PyExn CreationOut := do
  let price : Nat := 1000000000000000
  let test_validity_duration : Nat := 60 ^ 2
  let (nonce0, self) := get_nonce self 0 env.nonceA
  let tx_create_child : Tx :=
    { fn := "createChild"
      args := [self.oracle_address, self.accounts 1, toString price,
               toString test_validity_duration, "1", "1"]
      gasPrice := 0, sender := self.accounts 0, nonce := nonce0
      value := none }
  let st1 ← sign_send_transaction env.ssA tx_create_child (self.private_keys 0)
  let tx_sm_address := env.sm_address
  let (nonce1, self) := get_nonce self 1 env.nonceB
  let tx_deposit : Tx :=
    { fn := "Deposit", args := []
      gasPrice := 0, sender := self.accounts 1, nonce := nonce1
      value := some price }
  let st2 ← sign_send_transaction env.ssB tx_deposit (self.private_keys 1)
  let statuses := [st1, st2]
  let all_statuses := check_statuses statuses
  return { txs := [tx_create_child, tx_deposit], statuses := statuses
           sm_address := tx_sm_address, result := all_statuses, final := self }

/-- Method `ContractTest.sequence_upload`: `UploadRequest` from account 1, then
`UploadRequestAck` and `UploadTransferAck` from account 0; result is the AND
of the three statuses. -/
def sequence_upload (self : ContractTest) (env : Env3)
    (cloud_address filepath hash_digest : String) :
    Except PyExn ScenarioOut := do
  let _ := cloud_address
  let challenge := solidityKeccak hash_digest
  let (nonce1, self) := get_nonce self 1 env.nonceA
  let tx_upload_request : Tx :=
    { fn := "UploadRequest", args := [filepath, challenge]
      gasPrice := 0, sender := self.accounts 1, nonce := nonce1
      value := none }
  let st1 ← sign_send_transaction env.ssA tx_upload_request (self.private_keys 1)
  let (nonce0, self) := get_nonce self 0 env.nonceB
  let tx_upload_request_ack : Tx :=
    { fn := "UploadRequestAck", args := [filepath]
      gasPrice := 0, sender := self.accounts 0, nonce := nonce0
      value := none }
  let st2 ← sign_send_transaction env.ssB tx_upload_request_ack (self.private_keys 0)
  let (nonce0b, self) := get_nonce self 0 env.nonceC
  let tx_upload_transfer_ack : Tx :=
    { fn := "UploadTransferAck", args := [filepath, hash_digest]
      gasPrice := 0, sender := self.accounts 0, nonce := nonce0b
      value := none }
  let st3 ← sign_send_transaction env.ssC tx_upload_transfer_ack (self.private_keys 0)
  let statuses := [st1, st2, st3]
  return { txs := [tx_upload_request, tx_upload_request_ack, tx_upload_transfer_ack]
           statuses := statuses, result := check_statuses statuses, final := self }

/-- Method `ContractTest.sequence_read`: `ReadRequest` from account 1, then
`ReadRequestAck` from account 0; result is the AND of the two statuses. -/
def sequence_read (self : ContractTest) (env : Env2)
    (cloud_address filepath url : String) :
    Except PyExn ScenarioOut := do
  let _ := cloud_address
  let (nonce1, self) := get_nonce self 1 env.nonceA
  let tx_read_request : Tx :=
    { fn := "ReadRequest", args := [filepath]
      gasPrice := 0, sender := self.accounts 1, nonce := nonce1
      value := none }
  let st1 ← sign_send_transaction env.ssA tx_read_request (self.private_keys 1)
  let (nonce0, self) := get_nonce self 0 env.nonceB
  let tx_read_request_ack : Tx :=
    { fn := "ReadRequestAck", args := [filepath, url]
      gasPrice := 0, sender := self.accounts 0, nonce := nonce0
      value := none }
  let st2 ← sign_send_transaction env.ssB tx_read_request_ack (self.private_keys 0)
  let statuses := [st1, st2]
  return { txs := [tx_read_request, tx_read_request_ack]
           statuses := statuses, result := check_statuses statuses, final := self }

/-- Method `ContractTest.sequence_file`: `FileHashRequest` from account 1,
`DigestStore` (on the oracle) from account 2, `FileCheck` from account 1;
result is the AND of the three statuses. -/
def sequence_file (self : ContractTest) (env : Env3)
    (cloud_address filepath url hash_digest : String) :
    Except PyExn ScenarioOut := do
  let _ := cloud_address
  let (nonce1, self) := get_nonce self 1 env.nonceA
  let tx_file_hash_request : Tx :=
    { fn := "FileHashRequest", args := [filepath]
      gasPrice := 0, sender := self.accounts 1, nonce := nonce1
      value := none }
  let st1 ← sign_send_transaction env.ssA tx_file_hash_request (self.private_keys 1)
  let (nonce2, self) := get_nonce self 2 env.nonceB
  let tx_digit_store : Tx :=
    { fn := "DigestStore", args := [url, hash_digest]
      gasPrice := 0, sender := self.accounts 2, nonce := nonce2
      value := none }
  let st2 ← sign_send_transaction env.ssB tx_digit_store (self.private_keys 2)
  let (nonce1b, self) := get_nonce self 1 env.nonceC
  let tx_file_check : Tx :=
    { fn := "FileCheck", args := [filepath]
      gasPrice := 0, sender := self.accounts 1, nonce := nonce1b
      value := none }
  let st3 ← sign_send_transaction env.ssC tx_file_check (self.private_keys 1)
  let statuses := [st1, st2, st3]
  return { txs := [tx_file_hash_request, tx_digit_store, tx_file_check]
           statuses := statuses, result := check_statuses statuses, final := self }

/-- Method `ContractTest.delete`: fixed filepath `test.pdf`; `DeleteRequest` from
account 1, then `Delete` from account 0; result is the AND of the two
statuses. -/
def delete (self : ContractTest) (env : Env2) (cloud_address : String) :
    Except PyExn ScenarioOut := do
  let _ := cloud_address
  let filepath := "test.pdf"
  let (nonce1, self) := get_nonce self 1 env.nonceA
  let tx_delete_request : Tx :=
    { fn := "DeleteRequest", args := [filepath]
      gasPrice := 0, sender := self.accounts 1, nonce := nonce1
      value := none }
  let st1 ← sign_send_transaction env.ssA tx_delete_request (self.private_keys 1)
  let (nonce0, self) := get_nonce self 0 env.nonceB
  let tx_delete : Tx :=
    { fn := "Delete", args := [filepath]
      gasPrice := 0, sender := self.accounts 0, nonce := nonce0
      value := none }
  let st2 ← sign_send_transaction env.ssB tx_delete (self.private_keys 0)
  let statuses := [st1, st2]
  return { txs := [tx_delete_request, tx_delete]
           statuses := statuses, result := check_statuses statuses, final := self }

/-- Method `ContractTest.read_deny_lost_file_check`: fixed filepath `test2.pdf`;
`ReadRequest` from account 1, then `ReadRequestDeny` from account 0; result
is the AND of the two statuses. -/
def read_deny_lost_file_check (self : ContractTest) (env : Env2)
    (cloud_address : String) : Except PyExn ScenarioOut := do
  let _ := cloud_address
  let filepath := "test2.pdf"
  let (nonce1, self) := get_nonce self 1 env.nonceA
  let tx_read_request : Tx :=
    { fn := "ReadRequest", args := [filepath]
      gasPrice := 0, sender := self.accounts 1, nonce := nonce1
      value := none }
  let st1 ← sign_send_transaction env.ssA tx_read_request (self.private_keys 1)
  let (nonce0, self) := get_nonce self 0 env.nonceB
  let tx_read_request_deny : Tx :=
    { fn := "ReadRequestDeny", args := [filepath]
      gasPrice := 0, sender := self.accounts 0, nonce := nonce0
      value := none }
  let st2 ← sign_send_transaction env.ssB tx_read_request_deny (self.private_keys 0)
  let statuses := [st1, st2]
  return { txs := [tx_read_request, tx_read_request_deny]
           statuses := statuses, result := check_statuses statuses, final := self }

/-- Method `ContractTest.another_file_upload_read`: fixed parameters `test3.pdf`,
`www.test3.com` and a hash digest; runs `sequence_upload` then
`sequence_read` and returns the conjunction of the two results.  `txs` and
`statuses` collect both sub-sequences in order. -/
def another_file_upload_read (self : ContractTest) (envU : Env3)
    (envR : Env2) (cloud_address : String) : Except PyExn ScenarioOut := do
  let filepath := "test3.pdf"
  let url := "www.test3.com"
  let hash_digest := "0x2f86d081884c7d659a2feaa0c55ad015a3bf4f1b2b0b822cd15d6c15b0f00a08"
  let up ← sequence_upload self envU cloud_address filepath hash_digest
  let rd ← sequence_read up.final envR cloud_address filepath url
  return { txs := up.txs ++ rd.txs, statuses := up.statuses ++ rd.statuses
           result := up.result && rd.result, final := rd.final }

/-! ### Helper lemmas about runs -/

/-- The result a sign/send/wait world produces.  `sign_send_transaction`
reads the transaction and key only through the world callbacks, so its
result is a function of the world alone. -/
def SSEnv.outcome (env : SSEnv) : Except PyExn Nat :=
  sign_send_transaction env
    { fn := "", args := [], gasPrice := 0, sender := "", nonce := 0
      value := none } ""

theorem sign_send_outcome_eq (env : SSEnv) (tx : Tx) (pk : String) :
    sign_send_transaction env tx pk = env.outcome := rfl

/-- Sample object state used to instantiate theorems. -/
def sampleTest : ContractTest :=
  { factory_address := "0xFAC", oracle_address := "0xORA"
    accounts := fun i => "0xacct" ++ toString i
    private_keys := fun i => "pk" ++ toString i
    nonces := [5, 7, 9] }

/-- A sign/send/wait world in which every call succeeds and the receipt
carries status `st`. -/
def okSS (st : Nat) : SSEnv :=
  { sign := .ok 1, send := fun _ => .ok 2, wait := fun _ => .ok ⟨st⟩ }

/-- A sign/send/wait world in which submission raises `ValueError`. -/
def failSS : SSEnv :=
  { sign := .ok 1, send := fun _ => .exn (.valueError "tx rejected")
    wait := fun _ => .ok ⟨1⟩ }

theorem okSS_outcome (st : Nat) : (okSS st).outcome = .ok st := rfl

theorem failSS_outcome : failSS.outcome = .ok 0 := rfl

/-- A completed run of `sequence_upload`: when each of the three submission
worlds yields a status, the method returns the three built transactions,
their statuses in order, the AND of the statuses, and the unchanged state. -/
theorem sequence_upload_run (self : ContractTest) (env : Env3)
    (cloud_address filepath hash_digest : String) (st1 st2 st3 : Nat)
    (hA : env.ssA.outcome = .ok st1) (hB : env.ssB.outcome = .ok st2)
    (hC : env.ssC.outcome = .ok st3) :
    sequence_upload self env cloud_address filepath hash_digest = .ok
      { txs := [
          { fn := "UploadRequest"
            args := [filepath, solidityKeccak hash_digest]
            gasPrice := 0, sender := self.accounts 1, nonce := env.nonceA
            value := none },
          { fn := "UploadRequestAck", args := [filepath]
            gasPrice := 0, sender := self.accounts 0, nonce := env.nonceB
            value := none },
          { fn := "UploadTransferAck", args := [filepath, hash_digest]
            gasPrice := 0, sender := self.accounts 0, nonce := env.nonceC
            value := none }]
        statuses := [st1, st2, st3]
        result := check_statuses [st1, st2, st3]
        final := self } := by
  simp only [sequence_upload, get_nonce, sign_send_outcome_eq, hA, hB, hC,
    bind, Except.bind, pure, Except.pure]

/-- A completed run of `cloud_sla_creation_activation`. -/
theorem cloud_sla_creation_activation_run (self : ContractTest)
    (env : CreationEnv) (st1 st2 : Nat)
    (hA : env.ssA.outcome = .ok st1) (hB : env.ssB.outcome = .ok st2) :
    cloud_sla_creation_activation self env = .ok
      { txs := [
          { fn := "createChild"
            args := [self.oracle_address, self.accounts 1,
                     toString (1000000000000000 : Nat),
                     toString (60 ^ 2 : Nat), "1", "1"]
            gasPrice := 0, sender := self.accounts 0, nonce := env.nonceA
            value := none },
          { fn := "Deposit", args := []
            gasPrice := 0, sender := self.accounts 1, nonce := env.nonceB
            value := some 1000000000000000 }]
        statuses := [st1, st2]
        sm_address := env.sm_address
        result := check_statuses [st1, st2]
        final := self } := by
  simp only [cloud_sla_creation_activation, get_nonce, sign_send_outcome_eq,
    hA, hB, bind, Except.bind, pure, Except.pure]

/-- A completed run of `sequence_read`. -/
theorem sequence_read_run (self : ContractTest) (env : Env2)
    (cloud_address filepath url : String) (st1 st2 : Nat)
    (hA : env.ssA.outcome = .ok st1) (hB : env.ssB.outcome = .ok st2) :
    sequence_read self env cloud_address filepath url = .ok
      { txs := [
          { fn := "ReadRequest", args := [filepath]
            gasPrice := 0, sender := self.accounts 1, nonce := env.nonceA
            value := none },
          { fn := "ReadRequestAck", args := [filepath, url]
            gasPrice := 0, sender := self.accounts 0, nonce := env.nonceB
            value := none }]
        statuses := [st1, st2]
        result := check_statuses [st1, st2]
        final := self } := by
  simp only [sequence_read, get_nonce, sign_send_outcome_eq, hA, hB,
    bind, Except.bind, pure, Except.pure]

/-- A completed run of `sequence_file`. -/
theorem sequence_file_run (self : ContractTest) (env : Env3)
    (cloud_address filepath url hash_digest : String) (st1 st2 st3 : Nat)
    (hA : env.ssA.outcome = .ok st1) (hB : env.ssB.outcome = .ok st2)
    (hC : env.ssC.outcome = .ok st3) :
    sequence_file self env cloud_address filepath url hash_digest = .ok
      { txs := [
          { fn := "FileHashRequest", args := [filepath]
            gasPrice := 0, sender := self.accounts 1, nonce := env.nonceA
            value := none },
          { fn := "DigestStore", args := [url, hash_digest]
            gasPrice := 0, sender := self.accounts 2, nonce := env.nonceB
            value := none },
          { fn := "FileCheck", args := [filepath]
            gasPrice := 0, sender := self.accounts 1, nonce := env.nonceC
            value := none }]
        statuses := [st1, st2, st3]
        result := check_statuses [st1, st2, st3]
        final := self } := by
  simp only [sequence_file, get_nonce, sign_send_outcome_eq, hA, hB, hC,
    bind, Except.bind, pure, Except.pure]

/-- A completed run of `delete`. -/
theorem delete_run (self : ContractTest) (env : Env2)
    (cloud_address : String) (st1 st2 : Nat)
    (hA : env.ssA.outcome = .ok st1) (hB : env.ssB.outcome = .ok st2) :
    delete self env cloud_address = .ok
      { txs := [
          { fn := "DeleteRequest", args := ["test.pdf"]
            gasPrice := 0, sender := self.accounts 1, nonce := env.nonceA
            value := none },
          { fn := "Delete", args := ["test.pdf"]
            gasPrice := 0, sender := self.accounts 0, nonce := env.nonceB
            value := none }]
        statuses := [st1, st2]
        result := check_statuses [st1, st2]
        final := self } := by
  simp only [delete, get_nonce, sign_send_outcome_eq, hA, hB,
    bind, Except.bind, pure, Except.pure]

/-- A completed run of `read_deny_lost_file_check`. -/
theorem read_deny_lost_file_check_run (self : ContractTest) (env : Env2)
    (cloud_address : String) (st1 st2 : Nat)
    (hA : env.ssA.outcome = .ok st1) (hB : env.ssB.outcome = .ok st2) :
    read_deny_lost_file_check self env cloud_address = .ok
      { txs := [
          { fn := "ReadRequest", args := ["test2.pdf"]
            gasPrice := 0, sender := self.accounts 1, nonce := env.nonceA
            value := none },
          { fn := "ReadRequestDeny", args := ["test2.pdf"]
            gasPrice := 0, sender := self.accounts 0, nonce := env.nonceB
            value := none }]
        statuses := [st1, st2]
        result := check_statuses [st1, st2]
        final := self } := by
  simp only [read_deny_lost_file_check, get_nonce, sign_send_outcome_eq,
    hA, hB, bind, Except.bind, pure, Except.pure]

/-- A completed run of `another_file_upload_read`. -/
theorem another_file_upload_read_run (self : ContractTest) (envU : Env3)
    (envR : Env2) (cloud_address : String) (u1 u2 u3 r1 r2 : Nat)
    (hA : envU.ssA.outcome = .ok u1) (hB : envU.ssB.outcome = .ok u2)
    (hC : envU.ssC.outcome = .ok u3) (hD : envR.ssA.outcome = .ok r1)
    (hE : envR.ssB.outcome = .ok r2) :
    another_file_upload_read self envU envR cloud_address = .ok
      { txs := [
          { fn := "UploadRequest"
            args := ["test3.pdf", solidityKeccak
              "0x2f86d081884c7d659a2feaa0c55ad015a3bf4f1b2b0b822cd15d6c15b0f00a08"]
            gasPrice := 0, sender := self.accounts 1, nonce := envU.nonceA
            value := none },
          { fn := "UploadRequestAck", args := ["test3.pdf"]
            gasPrice := 0, sender := self.accounts 0, nonce := envU.nonceB
            value := none },
          { fn := "UploadTransferAck"
            args := ["test3.pdf",
              "0x2f86d081884c7d659a2feaa0c55ad015a3bf4f1b2b0b822cd15d6c15b0f00a08"]
            gasPrice := 0, sender := self.accounts 0, nonce := envU.nonceC
            value := none },
          { fn := "ReadRequest", args := ["test3.pdf"]
            gasPrice := 0, sender := self.accounts 1, nonce := envR.nonceA
            value := none },
          { fn := "ReadRequestAck", args := ["test3.pdf", "www.test3.com"]
            gasPrice := 0, sender := self.accounts 0, nonce := envR.nonceB
            value := none }]
        statuses := [u1, u2, u3, r1, r2]
        result := check_statuses [u1, u2, u3] && check_statuses [r1, r2]
        final := self } := by
  simp only [another_file_upload_read, bind, Except.bind, pure, Except.pure,
    sequence_upload_run self envU cloud_address _ _ u1 u2 u3 hA hB hC,
    sequence_read_run self envR cloud_address _ _ r1 r2 hD hE,
    List.cons_append, List.nil_append]

/-- Did the awaited call complete without a propagating exception? -/
def completes {α : Type} : Except PyExn α → Bool
  | .ok _ => true
  | .error _ => false

/-- Running `update_nonces` on a three-element nonce list replaces it by the three
looked-up counts and changes nothing else. -/
theorem update_nonces_three (self : ContractTest) (c : Nat → Nat)
    (a b d : Nat) (hl : self.nonces = [a, b, d]) :
    update_nonces self c = some { self with nonces := [c 0, c 1, c 2] } := by
  unfold update_nonces
  rw [hl]
  rfl

/-- State after `get_nonce_lock sampleTest 1`. -/
def sampleTestAfter : ContractTest := { sampleTest with nonces := [5, 8, 9] }

/-- State after a second `get_nonce_lock _ 1`. -/
def sampleTestAfter2 : ContractTest := { sampleTest with nonces := [5, 9, 9] }

/-- State after `update_nonces sampleTest (fun i => 100 + i)`. -/
def sampleTestUpdated : ContractTest :=
  { sampleTest with nonces := [100, 101, 102] }

/-- A sample transaction dict. -/
def sampleTx : Tx :=
  { fn := "UploadRequest", args := ["test.pdf"], gasPrice := 0
    sender := "0xacct1", nonce := 5, value := none }

/-- A sign/send/wait world in which signing raises `TimeExhausted`. -/
def signFailSS : SSEnv :=
  { sign := .exn (.timeExhausted "sign timeout"), send := fun _ => .ok 2
    wait := fun _ => .ok ⟨1⟩ }

/-- A sign/send/wait world in which waiting for the receipt raises
`TimeExhausted`. -/
def waitFailSS : SSEnv :=
  { sign := .ok 1, send := fun _ => .ok 2
    wait := fun _ => .exn (.timeExhausted "receipt timeout") }

/-- Inversion of a completed `sequence_upload` run: the three submission
worlds must each have yielded a status, and the output is the one of
`sequence_upload_run`. -/
theorem sequence_upload_ok_elim (self : ContractTest) (env : Env3)
    (cloud_address filepath hash_digest : String) (out : ScenarioOut)
    (h : sequence_upload self env cloud_address filepath hash_digest =
      .ok out) :
    ∃ st1 st2 st3, env.ssA.outcome = .ok st1 ∧ env.ssB.outcome = .ok st2 ∧
      env.ssC.outcome = .ok st3 ∧
      out =
        { txs := [
            { fn := "UploadRequest"
              args := [filepath, solidityKeccak hash_digest]
              gasPrice := 0, sender := self.accounts 1, nonce := env.nonceA
              value := none },
            { fn := "UploadRequestAck", args := [filepath]
              gasPrice := 0, sender := self.accounts 0, nonce := env.nonceB
              value := none },
            { fn := "UploadTransferAck", args := [filepath, hash_digest]
              gasPrice := 0, sender := self.accounts 0, nonce := env.nonceC
              value := none }]
          statuses := [st1, st2, st3]
          result := check_statuses [st1, st2, st3]
          final := self } := by
  cases hA : env.ssA.outcome with
  | error e =>
    simp only [sequence_upload, get_nonce, sign_send_outcome_eq, hA, bind,
      Except.bind] at h
    cases h
  | ok st1 =>
    cases hB : env.ssB.outcome with
    | error e =>
      simp only [sequence_upload, get_nonce, sign_send_outcome_eq, hA, hB,
        bind, Except.bind] at h
      cases h
    | ok st2 =>
      cases hC : env.ssC.outcome with
      | error e =>
        simp only [sequence_upload, get_nonce, sign_send_outcome_eq, hA, hB,
          hC, bind, Except.bind] at h
        cases h
      | ok st3 =>
        rw [sequence_upload_run self env cloud_address filepath hash_digest
          st1 st2 st3 hA hB hC] at h
        cases h
        exact ⟨st1, st2, st3, rfl, rfl, rfl, rfl⟩

/-- Inversion of a completed `cloud_sla_creation_activation` run. -/
theorem cloud_sla_creation_activation_ok_elim (self : ContractTest)
    (env : CreationEnv) (out : CreationOut)
    (h : cloud_sla_creation_activation self env = .ok out) :
    ∃ st1 st2, env.ssA.outcome = .ok st1 ∧ env.ssB.outcome = .ok st2 ∧
      out =
        { txs := [
            { fn := "createChild"
              args := [self.oracle_address, self.accounts 1,
                       toString (1000000000000000 : Nat),
                       toString (60 ^ 2 : Nat), "1", "1"]
              gasPrice := 0, sender := self.accounts 0, nonce := env.nonceA
              value := none },
            { fn := "Deposit", args := []
              gasPrice := 0, sender := self.accounts 1, nonce := env.nonceB
              value := some 1000000000000000 }]
          statuses := [st1, st2]
          sm_address := env.sm_address
          result := check_statuses [st1, st2]
          final := self } := by
  cases hA : env.ssA.outcome with
  | error e =>
    simp only [cloud_sla_creation_activation, get_nonce, sign_send_outcome_eq,
      hA, bind, Except.bind] at h
    cases h
  | ok st1 =>
    cases hB : env.ssB.outcome with
    | error e =>
      simp only [cloud_sla_creation_activation, get_nonce,
        sign_send_outcome_eq, hA, hB, bind, Except.bind] at h
      cases h
    | ok st2 =>
      rw [cloud_sla_creation_activation_run self env st1 st2 hA hB] at h
      cases h
      exact ⟨st1, st2, rfl, rfl, rfl⟩

/-- Inversion of a completed `sequence_read` run. -/
theorem sequence_read_ok_elim (self : ContractTest) (env : Env2)
    (cloud_address filepath url : String) (out : ScenarioOut)
    (h : sequence_read self env cloud_address filepath url = .ok out) :
    ∃ st1 st2, env.ssA.outcome = .ok st1 ∧ env.ssB.outcome = .ok st2 ∧
      out =
        { txs := [
            { fn := "ReadRequest", args := [filepath]
              gasPrice := 0, sender := self.accounts 1, nonce := env.nonceA
              value := none },
            { fn := "ReadRequestAck", args := [filepath, url]
              gasPrice := 0, sender := self.accounts 0, nonce := env.nonceB
              value := none }]
          statuses := [st1, st2]
          result := check_statuses [st1, st2]
          final := self } := by
  cases hA : env.ssA.outcome with
  | error e =>
    simp only [sequence_read, get_nonce, sign_send_outcome_eq, hA, bind,
      Except.bind] at h
    cases h
  | ok st1 =>
    cases hB : env.ssB.outcome with
    | error e =>
      simp only [sequence_read, get_nonce, sign_send_outcome_eq, hA, hB,
        bind, Except.bind] at h
      cases h
    | ok st2 =>
      rw [sequence_read_run self env cloud_address filepath url st1 st2
        hA hB] at h
      cases h
      exact ⟨st1, st2, rfl, rfl, rfl⟩

/-- Inversion of a completed `sequence_file` run. -/
theorem sequence_file_ok_elim (self : ContractTest) (env : Env3)
    (cloud_address filepath url hash_digest : String) (out : ScenarioOut)
    (h : sequence_file self env cloud_address filepath url hash_digest =
      .ok out) :
    ∃ st1 st2 st3, env.ssA.outcome = .ok st1 ∧ env.ssB.outcome = .ok st2 ∧
      env.ssC.outcome = .ok st3 ∧
      out =
        { txs := [
            { fn := "FileHashRequest", args := [filepath]
              gasPrice := 0, sender := self.accounts 1, nonce := env.nonceA
              value := none },
            { fn := "DigestStore", args := [url, hash_digest]
              gasPrice := 0, sender := self.accounts 2, nonce := env.nonceB
              value := none },
            { fn := "FileCheck", args := [filepath]
              gasPrice := 0, sender := self.accounts 1, nonce := env.nonceC
              value := none }]
          statuses := [st1, st2, st3]
          result := check_statuses [st1, st2, st3]
          final := self } := by
  cases hA : env.ssA.outcome with
  | error e =>
    simp only [sequence_file, get_nonce, sign_send_outcome_eq, hA, bind,
      Except.bind] at h
    cases h
  | ok st1 =>
    cases hB : env.ssB.outcome with
    | error e =>
      simp only [sequence_file, get_nonce, sign_send_outcome_eq, hA, hB,
        bind, Except.bind] at h
      cases h
    | ok st2 =>
      cases hC : env.ssC.outcome with
      | error e =>
        simp only [sequence_file, get_nonce, sign_send_outcome_eq, hA, hB,
          hC, bind, Except.bind] at h
        cases h
      | ok st3 =>
        rw [sequence_file_run self env cloud_address filepath url hash_digest
          st1 st2 st3 hA hB hC] at h
        cases h
        exact ⟨st1, st2, st3, rfl, rfl, rfl, rfl⟩

/-- Inversion of a completed `delete` run. -/
theorem delete_ok_elim (self : ContractTest) (env : Env2)
    (cloud_address : String) (out : ScenarioOut)
    (h : delete self env cloud_address = .ok out) :
    ∃ st1 st2, env.ssA.outcome = .ok st1 ∧ env.ssB.outcome = .ok st2 ∧
      out =
        { txs := [
            { fn := "DeleteRequest", args := ["test.pdf"]
              gasPrice := 0, sender := self.accounts 1, nonce := env.nonceA
              value := none },
            { fn := "Delete", args := ["test.pdf"]
              gasPrice := 0, sender := self.accounts 0, nonce := env.nonceB
              value := none }]
          statuses := [st1, st2]
          result := check_statuses [st1, st2]
          final := self } := by
  cases hA : env.ssA.outcome with
  | error e =>
    simp only [delete, get_nonce, sign_send_outcome_eq, hA, bind,
      Except.bind] at h
    cases h
  | ok st1 =>
    cases hB : env.ssB.outcome with
    | error e =>
      simp only [delete, get_nonce, sign_send_outcome_eq, hA, hB, bind,
        Except.bind] at h
      cases h
    | ok st2 =>
      rw [delete_run self env cloud_address st1 st2 hA hB] at h
      cases h
      exact ⟨st1, st2, rfl, rfl, rfl⟩

/-- Inversion of a completed `read_deny_lost_file_check` run. -/
theorem read_deny_lost_file_check_ok_elim (self : ContractTest) (env : Env2)
    (cloud_address : String) (out : ScenarioOut)
    (h : read_deny_lost_file_check self env cloud_address = .ok out) :
    ∃ st1 st2, env.ssA.outcome = .ok st1 ∧ env.ssB.outcome = .ok st2 ∧
      out =
        { txs := [
            { fn := "ReadRequest", args := ["test2.pdf"]
              gasPrice := 0, sender := self.accounts 1, nonce := env.nonceA
              value := none },
            { fn := "ReadRequestDeny", args := ["test2.pdf"]
              gasPrice := 0, sender := self.accounts 0, nonce := env.nonceB
              value := none }]
          statuses := [st1, st2]
          result := check_statuses [st1, st2]
          final := self } := by
  cases hA : env.ssA.outcome with
  | error e =>
    simp only [read_deny_lost_file_check, get_nonce, sign_send_outcome_eq,
      hA, bind, Except.bind] at h
    cases h
  | ok st1 =>
    cases hB : env.ssB.outcome with
    | error e =>
      simp only [read_deny_lost_file_check, get_nonce, sign_send_outcome_eq,
        hA, hB, bind, Except.bind] at h
      cases h
    | ok st2 =>
      rw [read_deny_lost_file_check_run self env cloud_address st1 st2
        hA hB] at h
      cases h
      exact ⟨st1, st2, rfl, rfl, rfl⟩

/-- Inversion of a completed `another_file_upload_read` run. -/
theorem another_file_upload_read_ok_elim (self : ContractTest) (envU : Env3)
    (envR : Env2) (cloud_address : String) (out : ScenarioOut)
    (h : another_file_upload_read self envU envR cloud_address = .ok out) :
    ∃ u1 u2 u3 r1 r2, envU.ssA.outcome = .ok u1 ∧
      envU.ssB.outcome = .ok u2 ∧ envU.ssC.outcome = .ok u3 ∧
      envR.ssA.outcome = .ok r1 ∧ envR.ssB.outcome = .ok r2 ∧
      out =
        { txs := [
            { fn := "UploadRequest"
              args := ["test3.pdf", solidityKeccak
                "0x2f86d081884c7d659a2feaa0c55ad015a3bf4f1b2b0b822cd15d6c15b0f00a08"]
              gasPrice := 0, sender := self.accounts 1, nonce := envU.nonceA
              value := none },
            { fn := "UploadRequestAck", args := ["test3.pdf"]
              gasPrice := 0, sender := self.accounts 0, nonce := envU.nonceB
              value := none },
            { fn := "UploadTransferAck"
              args := ["test3.pdf",
                "0x2f86d081884c7d659a2feaa0c55ad015a3bf4f1b2b0b822cd15d6c15b0f00a08"]
              gasPrice := 0, sender := self.accounts 0, nonce := envU.nonceC
              value := none },
            { fn := "ReadRequest", args := ["test3.pdf"]
              gasPrice := 0, sender := self.accounts 1, nonce := envR.nonceA
              value := none },
            { fn := "ReadRequestAck", args := ["test3.pdf", "www.test3.com"]
              gasPrice := 0, sender := self.accounts 0, nonce := envR.nonceB
              value := none }]
          statuses := [u1, u2, u3, r1, r2]
          result := check_statuses [u1, u2, u3] && check_statuses [r1, r2]
          final := self } := by
  cases hA : envU.ssA.outcome with
  | error e =>
    simp only [another_file_upload_read, sequence_upload, get_nonce,
      sign_send_outcome_eq, hA, bind, Except.bind] at h
    cases h
  | ok u1 =>
  cases hB : envU.ssB.outcome with
  | error e =>
    simp only [another_file_upload_read, sequence_upload, get_nonce,
      sign_send_outcome_eq, hA, hB, bind, Except.bind] at h
    cases h
  | ok u2 =>
  cases hC : envU.ssC.outcome with
  | error e =>
    simp only [another_file_upload_read, sequence_upload, get_nonce,
      sign_send_outcome_eq, hA, hB, hC, bind, Except.bind] at h
    cases h
  | ok u3 =>
  cases hD : envR.ssA.outcome with
  | error e =>
    simp only [another_file_upload_read, sequence_upload, sequence_read,
      get_nonce, sign_send_outcome_eq, hA, hB, hC, hD, bind, Except.bind,
      pure, Except.pure] at h
    cases h
  | ok r1 =>
  cases hE : envR.ssB.outcome with
  | error e =>
    simp only [another_file_upload_read, sequence_upload, sequence_read,
      get_nonce, sign_send_outcome_eq, hA, hB, hC, hD, hE, bind, Except.bind,
      pure, Except.pure] at h
    cases h
  | ok r2 =>
    rw [another_file_upload_read_run self envU envR cloud_address
      u1 u2 u3 r1 r2 hA hB hC hD hE] at h
    cases h
    exact ⟨u1, u2, u3, r1, r2, rfl, rfl, rfl, rfl, rfl, rfl⟩

/-- The well-formedness the spec ascribes to every built transaction: gas
price zero, sender one of the three configured accounts, and a `value`
entry only on `Deposit`, where it equals the agreement price. -/
def tx_wf (self : ContractTest) (t : Tx) : Bool :=
  (t.gasPrice == 0) &&
  ((t.sender == self.accounts 0) || (t.sender == self.accounts 1) ||
    (t.sender == self.accounts 2)) &&
  (if t.fn == "Deposit" then t.value == some 1000000000000000
   else t.value == none)

/-- Sample two-transaction environment: the second submission fails. -/
def sampleEnv2 : Env2 :=
  { nonceA := 21, ssA := okSS 1, nonceB := 22, ssB := failSS }

/-- Sample three-transaction environment: the middle submission fails. -/
def sampleEnv3 : Env3 :=
  { nonceA := 11, ssA := okSS 1, nonceB := 12, ssB := failSS
    nonceC := 13, ssC := okSS 1 }

/-- Sample creation environment: both submissions fail. -/
def sampleCreationEnv : CreationEnv :=
  { nonceA := 31, ssA := failSS, sm_address := "0xCHILD", nonceB := 32
    ssB := failSS }

/-- Extract a completed scenario output (defaulting if an exception
propagated). -/
def runOrDefault (r : Except PyExn ScenarioOut) : ScenarioOut :=
  match r with
  | .ok out => out
  | .error _ =>
    { txs := [], statuses := [], result := true, final := sampleTest }

/-- Extract a completed creation output (defaulting if an exception
propagated). -/
def creationRunOrDefault (r : Except PyExn CreationOut) : CreationOut :=
  match r with
  | .ok out => out
  | .error _ =>
    { txs := [], statuses := [], sm_address := "", result := true
      final := sampleTest }

/-- Output of a sample `cloud_sla_creation_activation` run. -/
def sampleCreationOut : CreationOut :=
  creationRunOrDefault
    (cloud_sla_creation_activation sampleTest sampleCreationEnv)

/-- Output of a sample `sequence_upload` run. -/
def sampleUpOut : ScenarioOut :=
  runOrDefault (sequence_upload sampleTest sampleEnv3 "0xC" "test.pdf"
    "0xhash")

/-- Output of a sample `sequence_read` run. -/
def sampleReadOut : ScenarioOut :=
  runOrDefault (sequence_read sampleTest sampleEnv2 "0xC" "test.pdf"
    "www.test.com")

/-- Output of a sample `sequence_file` run. -/
def sampleFileOut : ScenarioOut :=
  runOrDefault (sequence_file sampleTest sampleEnv3 "0xC" "test.pdf"
    "www.test.com" "0xhash")

/-- Output of a sample `delete` run. -/
def sampleDeleteOut : ScenarioOut :=
  runOrDefault (delete sampleTest sampleEnv2 "0xC")

/-- Output of a sample `read_deny_lost_file_check` run. -/
def sampleDenyOut : ScenarioOut :=
  runOrDefault (read_deny_lost_file_check sampleTest sampleEnv2 "0xC")

/-- Output of a sample `another_file_upload_read` run. -/
def sampleAfurOut : ScenarioOut :=
  runOrDefault (another_file_upload_read sampleTest sampleEnv3 sampleEnv2
    "0xC")

/-! ### Claim theorems -/

/-- C1: if signing, submitting, or awaiting the receipt raises `ValueError`
or `TimeExhausted`, `sign_send_transaction` returns status 0 and no
exception propagates to its caller; otherwise it returns the `status` field
of the transaction receipt. -/
theorem sign_send_transaction_error_handling (env : SSEnv) (tx : Tx)
    (pk : String) :
    (∀ e, env.sign = .exn e → catchable e = true →
      sign_send_transaction env tx pk = .ok 0) ∧
    (∀ s e, env.sign = .ok s → env.send s = .exn e → catchable e = true →
      sign_send_transaction env tx pk = .ok 0) ∧
    (∀ s t e, env.sign = .ok s → env.send s = .ok t → env.wait t = .exn e →
      catchable e = true → sign_send_transaction env tx pk = .ok 0) ∧
    (∀ s t r, env.sign = .ok s → env.send s = .ok t → env.wait t = .ok r →
      sign_send_transaction env tx pk = .ok r.status) := by
  refine ⟨?_, ?_, ?_, ?_⟩ <;> intros <;>
    simp [sign_send_transaction, *]

/-- Witness for C1: a caught signing timeout, a caught submission
`ValueError`, a caught receipt timeout, and a clean run reporting the
receipt status. -/
theorem sign_send_transaction_error_handling_witness :
    sign_send_transaction signFailSS sampleTx "pk1" = .ok 0 ∧
    sign_send_transaction failSS sampleTx "pk1" = .ok 0 ∧
    sign_send_transaction waitFailSS sampleTx "pk1" = .ok 0 ∧
    sign_send_transaction (okSS 1) sampleTx "pk1" = .ok 1 :=
  ⟨(sign_send_transaction_error_handling signFailSS sampleTx "pk1").1
      (.timeExhausted "sign timeout") rfl rfl,
   (sign_send_transaction_error_handling failSS sampleTx "pk1").2.1 1
      (.valueError "tx rejected") rfl rfl rfl,
   (sign_send_transaction_error_handling waitFailSS sampleTx "pk1").2.2.1 1 2
      (.timeExhausted "receipt timeout") rfl rfl rfl rfl,
   (sign_send_transaction_error_handling (okSS 1) sampleTx "pk1").2.2.2 1 2
      ⟨1⟩ rfl rfl rfl⟩

/-- C3: for an account index in {0,1,2}, a completed `get_nonce_lock` call
returns the stored nonce as it was at the start of the call and leaves the
stored entry at that value plus one; a subsequent completed call on the
same account therefore observes a different (one larger) value, never the
same one. -/
theorem get_nonce_lock_returns_fresh_nonce (self s₁ s₂ : ContractTest)
    (idx v v₂ : Nat) (h3 : self.nonces.length = 3) (hidx : idx < 3)
    (h : get_nonce_lock self idx = some (v, s₁))
    (h₂ : get_nonce_lock s₁ idx = some (v₂, s₂)) :
    v = self.nonces.getD idx 0 ∧ s₁.nonces.getD idx 0 = v + 1 ∧
    v₂ = v + 1 ∧ v₂ ≠ v := by
  have hlt : idx < self.nonces.length := h3 ▸ hidx
  unfold get_nonce_lock at h h₂
  rw [List.getElem?_eq_getElem hlt] at h
  simp only [Option.some.injEq, Prod.mk.injEq] at h
  obtain ⟨hv, hs⟩ := h
  subst hv
  subst hs
  rw [List.getElem?_set_self hlt] at h₂
  simp only [Option.some.injEq, Prod.mk.injEq] at h₂
  obtain ⟨hv₂, -⟩ := h₂
  subst hv₂
  refine ⟨?_, ?_, rfl, by omega⟩
  · simp [List.getD_eq_getElem?_getD, List.getElem?_eq_getElem hlt]
  · simp [List.getD_eq_getElem?_getD, List.getElem?_set_self hlt]

/-- Witness for C3: two consecutive calls on account 1 of the sample state
observe 7 then 8. -/
theorem get_nonce_lock_returns_fresh_nonce_witness :
    7 = sampleTest.nonces.getD 1 0 ∧ sampleTestAfter.nonces.getD 1 0 = 7 + 1 ∧
    8 = 7 + 1 ∧ 8 ≠ 7 :=
  get_nonce_lock_returns_fresh_nonce sampleTest sampleTestAfter
    sampleTestAfter2 1 7 8 rfl (by decide) rfl rfl

/-- C6: the fixed delay taken after acquiring the lock has no effect other
than elapsed time: for every delay, state and index, the timed run returns
the same value and nonce state as the run with the delay removed, and both
project to `get_nonce_lock`. -/
theorem get_nonce_lock_delay_no_effect (d : Nat) (self : ContractTest)
    (idx : Nat) :
    Option.map (fun r => (r.1, r.2.1)) (get_nonce_lock_timed d self idx) =
      Option.map (fun r => (r.1, r.2.1)) (get_nonce_lock_timed 0 self idx) ∧
    Option.map (fun r => (r.1, r.2.1)) (get_nonce_lock_timed d self idx) =
      get_nonce_lock self idx := by
  unfold get_nonce_lock_timed get_nonce_lock
  cases self.nonces[idx]? <;> simp

/-- C7: the nonce list is initialised with exactly three entries, one per
configured account, and both `get_nonce_lock` and `update_nonces` preserve
its length of three. -/
theorem nonces_length_three_invariant :
    (∀ c : Nat → Nat, (init_nonces c).length = 3) ∧
    (∀ (self : ContractTest) (idx v : Nat) (s' : ContractTest),
      self.nonces.length = 3 → get_nonce_lock self idx = some (v, s') →
      s'.nonces.length = 3) ∧
    (∀ (self : ContractTest) (c : Nat → Nat) (s' : ContractTest),
      self.nonces.length = 3 → update_nonces self c = some s' →
      s'.nonces.length = 3) := by
  refine ⟨fun c => rfl, ?_, ?_⟩
  · intro self idx v s' h3 h
    unfold get_nonce_lock at h
    cases hx : self.nonces[idx]? with
    | none => rw [hx] at h; cases h
    | some tmp =>
      rw [hx] at h
      cases h
      simpa using h3
  · intro self c s' h3 h
    obtain ⟨a, b, d, hl⟩ := List.length_eq_three.mp h3
    rw [update_nonces_three self c a b d hl] at h
    cases h
    rfl

/-- Witness for C7: initialisation and both operations on the sample state
keep the length at three. -/
theorem nonces_length_three_invariant_witness :
    (init_nonces (fun i => 4 + i)).length = 3 ∧
    sampleTestAfter.nonces.length = 3 ∧
    sampleTestUpdated.nonces.length = 3 :=
  ⟨nonces_length_three_invariant.1 (fun i => 4 + i),
   nonces_length_three_invariant.2.1 sampleTest 1 7 sampleTestAfter rfl rfl,
   nonces_length_three_invariant.2.2 sampleTest (fun i => 100 + i)
     sampleTestUpdated rfl rfl⟩

/-- C10: `get_nonce_lock idx` leaves every nonce entry other than `idx` and
every other field of the object unchanged; `update_nonces` overwrites
exactly the three nonce entries with the looked-up counts and nothing
else. -/
theorem nonce_ops_modify_only_their_entries :
    (∀ (self : ContractTest) (idx v : Nat) (s' : ContractTest) (j : Nat),
      get_nonce_lock self idx = some (v, s') → j ≠ idx →
      s'.nonces[j]? = self.nonces[j]? ∧ s'.accounts = self.accounts ∧
      s'.private_keys = self.private_keys ∧
      s'.factory_address = self.factory_address ∧
      s'.oracle_address = self.oracle_address) ∧
    (∀ (self : ContractTest) (c : Nat → Nat) (s' : ContractTest),
      self.nonces.length = 3 → update_nonces self c = some s' →
      s'.nonces = [c 0, c 1, c 2] ∧ s'.accounts = self.accounts ∧
      s'.private_keys = self.private_keys ∧
      s'.factory_address = self.factory_address ∧
      s'.oracle_address = self.oracle_address) := by
  refine ⟨?_, ?_⟩
  · intro self idx v s' j h hj
    unfold get_nonce_lock at h
    cases hx : self.nonces[idx]? with
    | none => rw [hx] at h; cases h
    | some tmp =>
      rw [hx] at h
      cases h
      exact ⟨List.getElem?_set_ne (Ne.symm hj), rfl, rfl, rfl, rfl⟩
  · intro self c s' h3 h
    obtain ⟨a, b, d, hl⟩ := List.length_eq_three.mp h3
    rw [update_nonces_three self c a b d hl] at h
    cases h
    exact ⟨rfl, rfl, rfl, rfl, rfl⟩

/-- Witness for C10: on the sample state, incrementing account 1 leaves
entry 0 and all other fields intact, and `update_nonces` installs the three
looked-up counts. -/
theorem nonce_ops_modify_only_their_entries_witness :
    (sampleTestAfter.nonces[0]? = sampleTest.nonces[0]? ∧
     sampleTestAfter.accounts = sampleTest.accounts ∧
     sampleTestAfter.private_keys = sampleTest.private_keys ∧
     sampleTestAfter.factory_address = sampleTest.factory_address ∧
     sampleTestAfter.oracle_address = sampleTest.oracle_address) ∧
    (sampleTestUpdated.nonces = [100, 101, 102] ∧
     sampleTestUpdated.accounts = sampleTest.accounts ∧
     sampleTestUpdated.private_keys = sampleTest.private_keys ∧
     sampleTestUpdated.factory_address = sampleTest.factory_address ∧
     sampleTestUpdated.oracle_address = sampleTest.oracle_address) :=
  ⟨nonce_ops_modify_only_their_entries.1 sampleTest 1 7 sampleTestAfter 0
     rfl (by decide),
   nonce_ops_modify_only_their_entries.2 sampleTest (fun i => 100 + i)
     sampleTestUpdated rfl rfl⟩

/-- C2: every scenario method returns the logical AND (`check_statuses`) of
the per-step statuses of the transactions it submitted, and any single zero
status makes `check_statuses` — hence the scenario result — false. -/
theorem scenario_result_is_and_of_statuses :
    (∀ sts : List Nat, 0 ∈ sts → check_statuses sts = false) ∧
    (∀ (self : ContractTest) (env : CreationEnv) (out : CreationOut),
      cloud_sla_creation_activation self env = .ok out →
      out.result = check_statuses out.statuses) ∧
    (∀ (self : ContractTest) (env : Env3) (a f hd : String)
      (out : ScenarioOut),
      sequence_upload self env a f hd = .ok out →
      out.result = check_statuses out.statuses) ∧
    (∀ (self : ContractTest) (env : Env2) (a f u : String)
      (out : ScenarioOut),
      sequence_read self env a f u = .ok out →
      out.result = check_statuses out.statuses) ∧
    (∀ (self : ContractTest) (env : Env3) (a f u hd : String)
      (out : ScenarioOut),
      sequence_file self env a f u hd = .ok out →
      out.result = check_statuses out.statuses) ∧
    (∀ (self : ContractTest) (env : Env2) (a : String) (out : ScenarioOut),
      delete self env a = .ok out →
      out.result = check_statuses out.statuses) ∧
    (∀ (self : ContractTest) (env : Env2) (a : String) (out : ScenarioOut),
      read_deny_lost_file_check self env a = .ok out →
      out.result = check_statuses out.statuses) ∧
    (∀ (self : ContractTest) (envU : Env3) (envR : Env2) (a : String)
      (out : ScenarioOut),
      another_file_upload_read self envU envR a = .ok out →
      out.result = check_statuses out.statuses) := by
  refine ⟨?_, ?_, ?_, ?_, ?_, ?_, ?_, ?_⟩
  · intro sts h
    simp only [check_statuses, List.all_eq_false]
    exact ⟨0, h, by simp⟩
  · intro self env out h
    obtain ⟨st1, st2, -, -, hout⟩ :=
      cloud_sla_creation_activation_ok_elim self env out h
    subst hout
    rfl
  · intro self env a f hd out h
    obtain ⟨st1, st2, st3, -, -, -, hout⟩ :=
      sequence_upload_ok_elim self env a f hd out h
    subst hout
    rfl
  · intro self env a f u out h
    obtain ⟨st1, st2, -, -, hout⟩ :=
      sequence_read_ok_elim self env a f u out h
    subst hout
    rfl
  · intro self env a f u hd out h
    obtain ⟨st1, st2, st3, -, -, -, hout⟩ :=
      sequence_file_ok_elim self env a f u hd out h
    subst hout
    rfl
  · intro self env a out h
    obtain ⟨st1, st2, -, -, hout⟩ := delete_ok_elim self env a out h
    subst hout
    rfl
  · intro self env a out h
    obtain ⟨st1, st2, -, -, hout⟩ :=
      read_deny_lost_file_check_ok_elim self env a out h
    subst hout
    rfl
  · intro self envU envR a out h
    obtain ⟨u1, u2, u3, r1, r2, -, -, -, -, -, hout⟩ :=
      another_file_upload_read_ok_elim self envU envR a out h
    subst hout
    simp [check_statuses, Bool.and_assoc]

/-- Witness for C2: sample runs of all seven scenario methods, each with a
failing step, whose results all equal the AND of their statuses. -/
theorem scenario_result_is_and_of_statuses_witness :
    check_statuses [1, 0] = false ∧
    sampleCreationOut.result = check_statuses sampleCreationOut.statuses ∧
    sampleUpOut.result = check_statuses sampleUpOut.statuses ∧
    sampleReadOut.result = check_statuses sampleReadOut.statuses ∧
    sampleFileOut.result = check_statuses sampleFileOut.statuses ∧
    sampleDeleteOut.result = check_statuses sampleDeleteOut.statuses ∧
    sampleDenyOut.result = check_statuses sampleDenyOut.statuses ∧
    sampleAfurOut.result = check_statuses sampleAfurOut.statuses :=
  ⟨scenario_result_is_and_of_statuses.1 [1, 0] (by decide),
   scenario_result_is_and_of_statuses.2.1 sampleTest sampleCreationEnv
     sampleCreationOut rfl,
   scenario_result_is_and_of_statuses.2.2.1 sampleTest sampleEnv3 "0xC"
     "test.pdf" "0xhash" sampleUpOut rfl,
   scenario_result_is_and_of_statuses.2.2.2.1 sampleTest sampleEnv2 "0xC"
     "test.pdf" "www.test.com" sampleReadOut rfl,
   scenario_result_is_and_of_statuses.2.2.2.2.1 sampleTest sampleEnv3 "0xC"
     "test.pdf" "www.test.com" "0xhash" sampleFileOut rfl,
   scenario_result_is_and_of_statuses.2.2.2.2.2.1 sampleTest sampleEnv2
     "0xC" sampleDeleteOut rfl,
   scenario_result_is_and_of_statuses.2.2.2.2.2.2.1 sampleTest sampleEnv2
     "0xC" sampleDenyOut rfl,
   scenario_result_is_and_of_statuses.2.2.2.2.2.2.2 sampleTest sampleEnv3
     sampleEnv2 "0xC" sampleAfurOut rfl⟩

/-- C4: within every scenario method each transaction is built, signed and
submitted exactly once: whenever each submission world yields a status —
zero (a caught failure) or not — the whole scenario completes, records
exactly one status per built transaction in step order, and the zero
reaches the scenario result only through the final AND. -/
theorem steps_submitted_exactly_once_no_retry :
    (∀ (self : ContractTest) (env : Env3) (a f hd : String)
      (st1 st2 st3 : Nat),
      env.ssA.outcome = .ok st1 → env.ssB.outcome = .ok st2 →
      env.ssC.outcome = .ok st3 →
      completes (sequence_upload self env a f hd) = true) ∧
    (∀ (self : ContractTest) (env : Env3) (a f hd : String)
      (st1 st2 st3 : Nat) (out : ScenarioOut),
      env.ssA.outcome = .ok st1 → env.ssB.outcome = .ok st2 →
      env.ssC.outcome = .ok st3 →
      sequence_upload self env a f hd = .ok out →
      out.txs.length = 3 ∧ out.statuses = [st1, st2, st3] ∧
      out.result = check_statuses out.statuses) ∧
    (∀ (self : ContractTest) (env : CreationEnv) (st1 st2 : Nat),
      env.ssA.outcome = .ok st1 → env.ssB.outcome = .ok st2 →
      completes (cloud_sla_creation_activation self env) = true) ∧
    (∀ (self : ContractTest) (env : CreationEnv) (st1 st2 : Nat)
      (out : CreationOut),
      env.ssA.outcome = .ok st1 → env.ssB.outcome = .ok st2 →
      cloud_sla_creation_activation self env = .ok out →
      out.txs.length = 2 ∧ out.statuses = [st1, st2] ∧
      out.result = check_statuses out.statuses) ∧
    (∀ (self : ContractTest) (env : Env2) (a f u : String) (st1 st2 : Nat),
      env.ssA.outcome = .ok st1 → env.ssB.outcome = .ok st2 →
      completes (sequence_read self env a f u) = true) ∧
    (∀ (self : ContractTest) (env : Env2) (a f u : String) (st1 st2 : Nat)
      (out : ScenarioOut),
      env.ssA.outcome = .ok st1 → env.ssB.outcome = .ok st2 →
      sequence_read self env a f u = .ok out →
      out.txs.length = 2 ∧ out.statuses = [st1, st2] ∧
      out.result = check_statuses out.statuses) ∧
    (∀ (self : ContractTest) (env : Env3) (a f u hd : String)
      (st1 st2 st3 : Nat),
      env.ssA.outcome = .ok st1 → env.ssB.outcome = .ok st2 →
      env.ssC.outcome = .ok st3 →
      completes (sequence_file self env a f u hd) = true) ∧
    (∀ (self : ContractTest) (env : Env3) (a f u hd : String)
      (st1 st2 st3 : Nat) (out : ScenarioOut),
      env.ssA.outcome = .ok st1 → env.ssB.outcome = .ok st2 →
      env.ssC.outcome = .ok st3 →
      sequence_file self env a f u hd = .ok out →
      out.txs.length = 3 ∧ out.statuses = [st1, st2, st3] ∧
      out.result = check_statuses out.statuses) ∧
    (∀ (self : ContractTest) (env : Env2) (a : String) (st1 st2 : Nat),
      env.ssA.outcome = .ok st1 → env.ssB.outcome = .ok st2 →
      completes (delete self env a) = true) ∧
    (∀ (self : ContractTest) (env : Env2) (a : String) (st1 st2 : Nat)
      (out : ScenarioOut),
      env.ssA.outcome = .ok st1 → env.ssB.outcome = .ok st2 →
      delete self env a = .ok out →
      out.txs.length = 2 ∧ out.statuses = [st1, st2] ∧
      out.result = check_statuses out.statuses) ∧
    (∀ (self : ContractTest) (env : Env2) (a : String) (st1 st2 : Nat),
      env.ssA.outcome = .ok st1 → env.ssB.outcome = .ok st2 →
      completes (read_deny_lost_file_check self env a) = true) ∧
    (∀ (self : ContractTest) (env : Env2) (a : String) (st1 st2 : Nat)
      (out : ScenarioOut),
      env.ssA.outcome = .ok st1 → env.ssB.outcome = .ok st2 →
      read_deny_lost_file_check self env a = .ok out →
      out.txs.length = 2 ∧ out.statuses = [st1, st2] ∧
      out.result = check_statuses out.statuses) ∧
    (∀ (self : ContractTest) (envU : Env3) (envR : Env2) (a : String)
      (u1 u2 u3 r1 r2 : Nat),
      envU.ssA.outcome = .ok u1 → envU.ssB.outcome = .ok u2 →
      envU.ssC.outcome = .ok u3 → envR.ssA.outcome = .ok r1 →
      envR.ssB.outcome = .ok r2 →
      completes (another_file_upload_read self envU envR a) = true) ∧
    (∀ (self : ContractTest) (envU : Env3) (envR : Env2) (a : String)
      (u1 u2 u3 r1 r2 : Nat) (out : ScenarioOut),
      envU.ssA.outcome = .ok u1 → envU.ssB.outcome = .ok u2 →
      envU.ssC.outcome = .ok u3 → envR.ssA.outcome = .ok r1 →
      envR.ssB.outcome = .ok r2 →
      another_file_upload_read self envU envR a = .ok out →
      out.txs.length = 5 ∧ out.statuses = [u1, u2, u3, r1, r2] ∧
      out.result = check_statuses out.statuses) := by
  refine ⟨?_, ?_, ?_, ?_, ?_, ?_, ?_, ?_, ?_, ?_, ?_, ?_, ?_, ?_⟩
  · intro self env a f hd st1 st2 st3 hA hB hC
    rw [sequence_upload_run self env a f hd st1 st2 st3 hA hB hC]
    rfl
  · intro self env a f hd st1 st2 st3 out hA hB hC h
    rw [sequence_upload_run self env a f hd st1 st2 st3 hA hB hC] at h
    cases h
    exact ⟨rfl, rfl, rfl⟩
  · intro self env st1 st2 hA hB
    rw [cloud_sla_creation_activation_run self env st1 st2 hA hB]
    rfl
  · intro self env st1 st2 out hA hB h
    rw [cloud_sla_creation_activation_run self env st1 st2 hA hB] at h
    cases h
    exact ⟨rfl, rfl, rfl⟩
  · intro self env a f u st1 st2 hA hB
    rw [sequence_read_run self env a f u st1 st2 hA hB]
    rfl
  · intro self env a f u st1 st2 out hA hB h
    rw [sequence_read_run self env a f u st1 st2 hA hB] at h
    cases h
    exact ⟨rfl, rfl, rfl⟩
  · intro self env a f u hd st1 st2 st3 hA hB hC
    rw [sequence_file_run self env a f u hd st1 st2 st3 hA hB hC]
    rfl
  · intro self env a f u hd st1 st2 st3 out hA hB hC h
    rw [sequence_file_run self env a f u hd st1 st2 st3 hA hB hC] at h
    cases h
    exact ⟨rfl, rfl, rfl⟩
  · intro self env a st1 st2 hA hB
    rw [delete_run self env a st1 st2 hA hB]
    rfl
  · intro self env a st1 st2 out hA hB h
    rw [delete_run self env a st1 st2 hA hB] at h
    cases h
    exact ⟨rfl, rfl, rfl⟩
  · intro self env a st1 st2 hA hB
    rw [read_deny_lost_file_check_run self env a st1 st2 hA hB]
    rfl
  · intro self env a st1 st2 out hA hB h
    rw [read_deny_lost_file_check_run self env a st1 st2 hA hB] at h
    cases h
    exact ⟨rfl, rfl, rfl⟩
  · intro self envU envR a u1 u2 u3 r1 r2 hA hB hC hD hE
    rw [another_file_upload_read_run self envU envR a u1 u2 u3 r1 r2
      hA hB hC hD hE]
    rfl
  · intro self envU envR a u1 u2 u3 r1 r2 out hA hB hC hD hE h
    rw [another_file_upload_read_run self envU envR a u1 u2 u3 r1 r2
      hA hB hC hD hE] at h
    cases h
    exact ⟨rfl, rfl, by simp [check_statuses, Bool.and_assoc]⟩

/-- Witness for C4: runs of all seven scenario methods in which a step
fails still complete, with exactly one status per built transaction. -/
theorem steps_submitted_exactly_once_no_retry_witness :
    completes (sequence_upload sampleTest sampleEnv3 "0xC" "test.pdf"
      "0xhash") = true ∧
    (sampleUpOut.txs.length = 3 ∧ sampleUpOut.statuses = [1, 0, 1] ∧
      sampleUpOut.result = check_statuses sampleUpOut.statuses) ∧
    completes (cloud_sla_creation_activation sampleTest sampleCreationEnv) =
      true ∧
    (sampleCreationOut.txs.length = 2 ∧
      sampleCreationOut.statuses = [0, 0] ∧
      sampleCreationOut.result = check_statuses sampleCreationOut.statuses) ∧
    completes (sequence_read sampleTest sampleEnv2 "0xC" "test.pdf"
      "www.test.com") = true ∧
    (sampleReadOut.txs.length = 2 ∧ sampleReadOut.statuses = [1, 0] ∧
      sampleReadOut.result = check_statuses sampleReadOut.statuses) ∧
    completes (sequence_file sampleTest sampleEnv3 "0xC" "test.pdf"
      "www.test.com" "0xhash") = true ∧
    (sampleFileOut.txs.length = 3 ∧ sampleFileOut.statuses = [1, 0, 1] ∧
      sampleFileOut.result = check_statuses sampleFileOut.statuses) ∧
    completes (delete sampleTest sampleEnv2 "0xC") = true ∧
    (sampleDeleteOut.txs.length = 2 ∧ sampleDeleteOut.statuses = [1, 0] ∧
      sampleDeleteOut.result = check_statuses sampleDeleteOut.statuses) ∧
    completes (read_deny_lost_file_check sampleTest sampleEnv2 "0xC") =
      true ∧
    (sampleDenyOut.txs.length = 2 ∧ sampleDenyOut.statuses = [1, 0] ∧
      sampleDenyOut.result = check_statuses sampleDenyOut.statuses) ∧
    completes (another_file_upload_read sampleTest sampleEnv3 sampleEnv2
      "0xC") = true ∧
    (sampleAfurOut.txs.length = 5 ∧
      sampleAfurOut.statuses = [1, 0, 1, 1, 0] ∧
      sampleAfurOut.result = check_statuses sampleAfurOut.statuses) :=
  ⟨steps_submitted_exactly_once_no_retry.1 sampleTest sampleEnv3 "0xC"
     "test.pdf" "0xhash" 1 0 1 rfl rfl rfl,
   steps_submitted_exactly_once_no_retry.2.1 sampleTest sampleEnv3 "0xC"
     "test.pdf" "0xhash" 1 0 1 sampleUpOut rfl rfl rfl rfl,
   steps_submitted_exactly_once_no_retry.2.2.1 sampleTest sampleCreationEnv
     0 0 rfl rfl,
   steps_submitted_exactly_once_no_retry.2.2.2.1 sampleTest
     sampleCreationEnv 0 0 sampleCreationOut rfl rfl rfl,
   steps_submitted_exactly_once_no_retry.2.2.2.2.1 sampleTest sampleEnv2
     "0xC" "test.pdf" "www.test.com" 1 0 rfl rfl,
   steps_submitted_exactly_once_no_retry.2.2.2.2.2.1 sampleTest sampleEnv2
     "0xC" "test.pdf" "www.test.com" 1 0 sampleReadOut rfl rfl rfl,
   steps_submitted_exactly_once_no_retry.2.2.2.2.2.2.1 sampleTest
     sampleEnv3 "0xC" "test.pdf" "www.test.com" "0xhash" 1 0 1 rfl rfl rfl,
   steps_submitted_exactly_once_no_retry.2.2.2.2.2.2.2.1 sampleTest
     sampleEnv3 "0xC" "test.pdf" "www.test.com" "0xhash" 1 0 1
     sampleFileOut rfl rfl rfl rfl,
   steps_submitted_exactly_once_no_retry.2.2.2.2.2.2.2.2.1 sampleTest
     sampleEnv2 "0xC" 1 0 rfl rfl,
   steps_submitted_exactly_once_no_retry.2.2.2.2.2.2.2.2.2.1 sampleTest
     sampleEnv2 "0xC" 1 0 sampleDeleteOut rfl rfl rfl,
   steps_submitted_exactly_once_no_retry.2.2.2.2.2.2.2.2.2.2.1 sampleTest
     sampleEnv2 "0xC" 1 0 rfl rfl,
   steps_submitted_exactly_once_no_retry.2.2.2.2.2.2.2.2.2.2.2.1 sampleTest
     sampleEnv2 "0xC" 1 0 sampleDenyOut rfl rfl rfl,
   steps_submitted_exactly_once_no_retry.2.2.2.2.2.2.2.2.2.2.2.2.1
     sampleTest sampleEnv3 sampleEnv2 "0xC" 1 0 1 1 0 rfl rfl rfl rfl rfl,
   steps_submitted_exactly_once_no_retry.2.2.2.2.2.2.2.2.2.2.2.2.2
     sampleTest sampleEnv3 sampleEnv2 "0xC" 1 0 1 1 0 sampleAfurOut
     rfl rfl rfl rfl rfl rfl⟩

/-- C5: every transaction built by a scenario method has gas price zero and
a sender among the three configured accounts, and carries a `value` entry
only on the `Deposit` transaction, where it equals the agreement price. -/
theorem built_transactions_wellformed :
    (∀ (self : ContractTest) (env : CreationEnv) (out : CreationOut),
      cloud_sla_creation_activation self env = .ok out →
      out.txs.all (tx_wf self) = true) ∧
    (∀ (self : ContractTest) (env : Env3) (a f hd : String)
      (out : ScenarioOut),
      sequence_upload self env a f hd = .ok out →
      out.txs.all (tx_wf self) = true) ∧
    (∀ (self : ContractTest) (env : Env2) (a f u : String)
      (out : ScenarioOut),
      sequence_read self env a f u = .ok out →
      out.txs.all (tx_wf self) = true) ∧
    (∀ (self : ContractTest) (env : Env3) (a f u hd : String)
      (out : ScenarioOut),
      sequence_file self env a f u hd = .ok out →
      out.txs.all (tx_wf self) = true) ∧
    (∀ (self : ContractTest) (env : Env2) (a : String) (out : ScenarioOut),
      delete self env a = .ok out →
      out.txs.all (tx_wf self) = true) ∧
    (∀ (self : ContractTest) (env : Env2) (a : String) (out : ScenarioOut),
      read_deny_lost_file_check self env a = .ok out →
      out.txs.all (tx_wf self) = true) ∧
    (∀ (self : ContractTest) (envU : Env3) (envR : Env2) (a : String)
      (out : ScenarioOut),
      another_file_upload_read self envU envR a = .ok out →
      out.txs.all (tx_wf self) = true) := by
  refine ⟨?_, ?_, ?_, ?_, ?_, ?_, ?_⟩
  · intro self env out h
    obtain ⟨st1, st2, -, -, hout⟩ :=
      cloud_sla_creation_activation_ok_elim self env out h
    subst hout
    simp [tx_wf]
  · intro self env a f hd out h
    obtain ⟨st1, st2, st3, -, -, -, hout⟩ :=
      sequence_upload_ok_elim self env a f hd out h
    subst hout
    simp [tx_wf]
  · intro self env a f u out h
    obtain ⟨st1, st2, -, -, hout⟩ :=
      sequence_read_ok_elim self env a f u out h
    subst hout
    simp [tx_wf]
  · intro self env a f u hd out h
    obtain ⟨st1, st2, st3, -, -, -, hout⟩ :=
      sequence_file_ok_elim self env a f u hd out h
    subst hout
    simp [tx_wf]
  · intro self env a out h
    obtain ⟨st1, st2, -, -, hout⟩ := delete_ok_elim self env a out h
    subst hout
    simp [tx_wf]
  · intro self env a out h
    obtain ⟨st1, st2, -, -, hout⟩ :=
      read_deny_lost_file_check_ok_elim self env a out h
    subst hout
    simp [tx_wf]
  · intro self envU envR a out h
    obtain ⟨u1, u2, u3, r1, r2, -, -, -, -, -, hout⟩ :=
      another_file_upload_read_ok_elim self envU envR a out h
    subst hout
    simp [tx_wf]

/-- Witness for C5: the transactions of the seven sample runs are all
well-formed. -/
theorem built_transactions_wellformed_witness :
    sampleCreationOut.txs.all (tx_wf sampleTest) = true ∧
    sampleUpOut.txs.all (tx_wf sampleTest) = true ∧
    sampleReadOut.txs.all (tx_wf sampleTest) = true ∧
    sampleFileOut.txs.all (tx_wf sampleTest) = true ∧
    sampleDeleteOut.txs.all (tx_wf sampleTest) = true ∧
    sampleDenyOut.txs.all (tx_wf sampleTest) = true ∧
    sampleAfurOut.txs.all (tx_wf sampleTest) = true :=
  ⟨built_transactions_wellformed.1 sampleTest sampleCreationEnv
     sampleCreationOut rfl,
   built_transactions_wellformed.2.1 sampleTest sampleEnv3 "0xC" "test.pdf"
     "0xhash" sampleUpOut rfl,
   built_transactions_wellformed.2.2.1 sampleTest sampleEnv2 "0xC"
     "test.pdf" "www.test.com" sampleReadOut rfl,
   built_transactions_wellformed.2.2.2.1 sampleTest sampleEnv3 "0xC"
     "test.pdf" "www.test.com" "0xhash" sampleFileOut rfl,
   built_transactions_wellformed.2.2.2.2.1 sampleTest sampleEnv2 "0xC"
     sampleDeleteOut rfl,
   built_transactions_wellformed.2.2.2.2.2.1 sampleTest sampleEnv2 "0xC"
     sampleDenyOut rfl,
   built_transactions_wellformed.2.2.2.2.2.2 sampleTest sampleEnv3
     sampleEnv2 "0xC" sampleAfurOut rfl⟩

/-- C8: no scenario method reads or writes the lock-guarded nonce list:
every nonce placed in a built transaction is the value obtained from the
corresponding per-call `get_nonce` network lookup, and the nonce list at
return equals the nonce list at entry. -/
theorem scenario_methods_use_get_nonce_only :
    (∀ (self : ContractTest) (env : CreationEnv) (out : CreationOut),
      cloud_sla_creation_activation self env = .ok out →
      out.txs.map Tx.nonce =
        [(get_nonce self 0 env.nonceA).1, (get_nonce self 1 env.nonceB).1] ∧
      out.final.nonces = self.nonces) ∧
    (∀ (self : ContractTest) (env : Env3) (a f hd : String)
      (out : ScenarioOut),
      sequence_upload self env a f hd = .ok out →
      out.txs.map Tx.nonce =
        [(get_nonce self 1 env.nonceA).1, (get_nonce self 0 env.nonceB).1,
         (get_nonce self 0 env.nonceC).1] ∧
      out.final.nonces = self.nonces) ∧
    (∀ (self : ContractTest) (env : Env2) (a f u : String)
      (out : ScenarioOut),
      sequence_read self env a f u = .ok out →
      out.txs.map Tx.nonce =
        [(get_nonce self 1 env.nonceA).1, (get_nonce self 0 env.nonceB).1] ∧
      out.final.nonces = self.nonces) ∧
    (∀ (self : ContractTest) (env : Env3) (a f u hd : String)
      (out : ScenarioOut),
      sequence_file self env a f u hd = .ok out →
      out.txs.map Tx.nonce =
        [(get_nonce self 1 env.nonceA).1, (get_nonce self 2 env.nonceB).1,
         (get_nonce self 1 env.nonceC).1] ∧
      out.final.nonces = self.nonces) ∧
    (∀ (self : ContractTest) (env : Env2) (a : String) (out : ScenarioOut),
      delete self env a = .ok out →
      out.txs.map Tx.nonce =
        [(get_nonce self 1 env.nonceA).1, (get_nonce self 0 env.nonceB).1] ∧
      out.final.nonces = self.nonces) ∧
    (∀ (self : ContractTest) (env : Env2) (a : String) (out : ScenarioOut),
      read_deny_lost_file_check self env a = .ok out →
      out.txs.map Tx.nonce =
        [(get_nonce self 1 env.nonceA).1, (get_nonce self 0 env.nonceB).1] ∧
      out.final.nonces = self.nonces) ∧
    (∀ (self : ContractTest) (envU : Env3) (envR : Env2) (a : String)
      (out : ScenarioOut),
      another_file_upload_read self envU envR a = .ok out →
      out.txs.map Tx.nonce =
        [(get_nonce self 1 envU.nonceA).1, (get_nonce self 0 envU.nonceB).1,
         (get_nonce self 0 envU.nonceC).1, (get_nonce self 1 envR.nonceA).1,
         (get_nonce self 0 envR.nonceB).1] ∧
      out.final.nonces = self.nonces) := by
  refine ⟨?_, ?_, ?_, ?_, ?_, ?_, ?_⟩
  · intro self env out h
    obtain ⟨st1, st2, -, -, hout⟩ :=
      cloud_sla_creation_activation_ok_elim self env out h
    subst hout
    exact ⟨rfl, rfl⟩
  · intro self env a f hd out h
    obtain ⟨st1, st2, st3, -, -, -, hout⟩ :=
      sequence_upload_ok_elim self env a f hd out h
    subst hout
    exact ⟨rfl, rfl⟩
  · intro self env a f u out h
    obtain ⟨st1, st2, -, -, hout⟩ :=
      sequence_read_ok_elim self env a f u out h
    subst hout
    exact ⟨rfl, rfl⟩
  · intro self env a f u hd out h
    obtain ⟨st1, st2, st3, -, -, -, hout⟩ :=
      sequence_file_ok_elim self env a f u hd out h
    subst hout
    exact ⟨rfl, rfl⟩
  · intro self env a out h
    obtain ⟨st1, st2, -, -, hout⟩ := delete_ok_elim self env a out h
    subst hout
    exact ⟨rfl, rfl⟩
  · intro self env a out h
    obtain ⟨st1, st2, -, -, hout⟩ :=
      read_deny_lost_file_check_ok_elim self env a out h
    subst hout
    exact ⟨rfl, rfl⟩
  · intro self envU envR a out h
    obtain ⟨u1, u2, u3, r1, r2, -, -, -, -, -, hout⟩ :=
      another_file_upload_read_ok_elim self envU envR a out h
    subst hout
    exact ⟨rfl, rfl⟩

/-- Witness for C8: the seven sample runs use their per-call network nonce
values and leave the sample nonce list `[5, 7, 9]` untouched. -/
theorem scenario_methods_use_get_nonce_only_witness :
    (sampleCreationOut.txs.map Tx.nonce = [31, 32] ∧
      sampleCreationOut.final.nonces = sampleTest.nonces) ∧
    (sampleUpOut.txs.map Tx.nonce = [11, 12, 13] ∧
      sampleUpOut.final.nonces = sampleTest.nonces) ∧
    (sampleReadOut.txs.map Tx.nonce = [21, 22] ∧
      sampleReadOut.final.nonces = sampleTest.nonces) ∧
    (sampleFileOut.txs.map Tx.nonce = [11, 12, 13] ∧
      sampleFileOut.final.nonces = sampleTest.nonces) ∧
    (sampleDeleteOut.txs.map Tx.nonce = [21, 22] ∧
      sampleDeleteOut.final.nonces = sampleTest.nonces) ∧
    (sampleDenyOut.txs.map Tx.nonce = [21, 22] ∧
      sampleDenyOut.final.nonces = sampleTest.nonces) ∧
    (sampleAfurOut.txs.map Tx.nonce = [11, 12, 13, 21, 22] ∧
      sampleAfurOut.final.nonces = sampleTest.nonces) :=
  ⟨scenario_methods_use_get_nonce_only.1 sampleTest sampleCreationEnv
     sampleCreationOut rfl,
   scenario_methods_use_get_nonce_only.2.1 sampleTest sampleEnv3 "0xC"
     "test.pdf" "0xhash" sampleUpOut rfl,
   scenario_methods_use_get_nonce_only.2.2.1 sampleTest sampleEnv2 "0xC"
     "test.pdf" "www.test.com" sampleReadOut rfl,
   scenario_methods_use_get_nonce_only.2.2.2.1 sampleTest sampleEnv3 "0xC"
     "test.pdf" "www.test.com" "0xhash" sampleFileOut rfl,
   scenario_methods_use_get_nonce_only.2.2.2.2.1 sampleTest sampleEnv2
     "0xC" sampleDeleteOut rfl,
   scenario_methods_use_get_nonce_only.2.2.2.2.2.1 sampleTest sampleEnv2
     "0xC" sampleDenyOut rfl,
   scenario_methods_use_get_nonce_only.2.2.2.2.2.2 sampleTest sampleEnv3
     sampleEnv2 "0xC" sampleAfurOut rfl⟩

/-- C9: `cloud_sla_creation_activation` always returns, as the address
component of its result, the address obtained from the factory's
`getSmartContractAddress` call; the address is not gated on the statuses of
`createChild` or `Deposit`. -/
theorem creation_address_not_gated_on_status (self : ContractTest)
    (env : CreationEnv) (out : CreationOut)
    (h : cloud_sla_creation_activation self env = .ok out) :
    out.sm_address = env.sm_address := by
  obtain ⟨st1, st2, -, -, hout⟩ :=
    cloud_sla_creation_activation_ok_elim self env out h
  subst hout
  rfl

/-- Witness for C9: in the sample creation run both transactions failed
(statuses `[0, 0]`, result false) yet the looked-up child address is
returned. -/
theorem creation_address_not_gated_on_status_witness :
    sampleCreationOut.sm_address = sampleCreationEnv.sm_address ∧
    sampleCreationOut.statuses = [0, 0] ∧
    sampleCreationOut.result = false :=
  ⟨creation_address_not_gated_on_status sampleTest sampleCreationEnv
     sampleCreationOut rfl, rfl, rfl⟩

end CloudChain
